import Mathlib

/-!
Shallow embedding of the Oracle-mcp security core (src/config.py and
src/database.py): the SQL validator (`SQLValidator`), the query execution
pipeline (`OracleDatabase.execute_query` / `execute_safe_query`), and the
schema access resolver (`OracleDatabase._is_schema_allowed`).

Python string operations are modelled on their ASCII fragment, which covers
every string the code and the claims manipulate: `str.upper` maps `a`-`z` to
`A`-`Z` and leaves other characters unchanged; `str.strip` and the
argument-less `str.split` use the ASCII whitespace characters; the `in`
operator on strings is substring containment; `re.search` is modelled by an
explicit matcher for the eight fixed patterns the code uses.
-/

namespace OracleMCP

/-- Python whitespace (ASCII): the characters `str.split()`, `str.strip()`
and the regex class `\s` treat as spaces. -/
def isPySpace (c : Char) : Bool :=
  c = ' ' || c = '\t' || c = '\n' || c = '\x0d' || c = '\x0b' || c = '\x0c'

/-- Python regex word character `\w` (ASCII fragment): letters, digits, underscore. -/
def isWordChar (c : Char) : Bool :=
  ('A' ≤ c && c ≤ 'Z') || ('a' ≤ c && c ≤ 'z') || ('0' ≤ c && c ≤ '9') || c = '_'

/-- `str.upper` on one ASCII character. -/
def pyUpperChar (c : Char) : Char :=
  if 'a' ≤ c && c ≤ 'z' then Char.ofNat (c.toNat - 32) else c

/-- `str.upper` (ASCII fragment). -/
def pyUpper (cs : List Char) : List Char := cs.map pyUpperChar

/-- `str.strip()`: remove leading and trailing whitespace. -/
def pyStrip (cs : List Char) : List Char :=
  ((cs.dropWhile isPySpace).reverse.dropWhile isPySpace).reverse

/-- Helper for `pySplit`: accumulates the current word (reversed). -/
def pySplitAux (cur : List Char) : List Char → List (List Char)
  | [] => if cur.isEmpty then [] else [cur.reverse]
  | c :: cs =>
      if isPySpace c then
        if cur.isEmpty then pySplitAux [] cs else cur.reverse :: pySplitAux [] cs
      else
        pySplitAux (c :: cur) cs

/-- Argument-less `str.split()`: split on runs of whitespace, no empty words. -/
def pySplit (cs : List Char) : List (List Char) := pySplitAux [] cs

/-- Python `needle in hay` on strings: substring containment. -/
def containsSub (needle : List Char) : List Char → Bool
  | [] => needle.isEmpty
  | c :: cs => needle.isPrefixOf (c :: cs) || containsSub needle cs

/-- Python slice `xs[:n]` for an arbitrary integer `n` (the code slices with
the configured `max_result_rows`, an unconstrained `int`): a negative bound
counts from the end. -/
def pySlice (xs : List α) (n : Int) : List α :=
  if n < 0 then xs.take (((xs.length : Int) + n).toNat) else xs.take n.toNat

/-! ### The regex matcher for the eight fixed `dangerous_patterns`

Each pattern in `SQLValidator._validate_readonly` has the shape
`\bLIT(\s+LIT | \s+\w+\s+LIT)\b` with alphabetic literals.  Inside such a
pattern every `\s+` is followed by a word character and every `\w+` by a
whitespace character, so greedy (maximal-munch) consumption of each
one-or-more class is equivalent to the existence of a regex match: cutting a
`\s+` or `\w+` run short would leave a character the next element cannot
accept.  `re.search` existence is therefore the disjunction, over all start
positions, of a deterministic left-to-right match. -/

/-- One element of a pattern: a literal, `\s+`, or `\w+`. -/
inductive Tok : Type
  | lit : List Char → Tok
  | spaces : Tok
  | words : Tok
deriving DecidableEq

/-- Consume one-or-more characters satisfying `p` (maximal munch). -/
def eatOnePlus (p : Char → Bool) : List Char → Option (List Char)
  | [] => none
  | c :: cs => if p c then some (cs.dropWhile p) else none

/-- Match a pattern element list at the head of `cs`; return the remainder. -/
def matchToks : List Tok → List Char → Option (List Char)
  | [], cs => some cs
  | Tok.lit l :: ts, cs =>
      if l.isPrefixOf cs then matchToks ts (cs.drop l.length) else none
  | Tok.spaces :: ts, cs =>
      match eatOnePlus isPySpace cs with
      | some cs2 => matchToks ts cs2
      | none => none
  | Tok.words :: ts, cs =>
      match eatOnePlus isWordChar cs with
      | some cs2 => matchToks ts cs2
      | none => none

/-- A `\b` before the pattern: start of text, or previous character non-word.
(The patterns start with a word character, so this is the full condition.) -/
def boundaryBefore : Option Char → Bool
  | none => true
  | some c => !(isWordChar c)

/-- A `\b` after the pattern: end of text, or next character non-word.
(The patterns end with a word character.) -/
def boundaryAfter : List Char → Bool
  | [] => true
  | c :: _ => !(isWordChar c)

/-- Try to match the whole pattern at the current position, word boundaries
at both ends (`prev` is the character just before the position, if any). -/
def tryMatchAt (p : List Tok) (prev : Option Char) (cs : List Char) : Bool :=
  boundaryBefore prev &&
    (match matchToks p cs with
     | some rest => boundaryAfter rest
     | none => false)

/-- Search for a match at any position of the text. -/
def reSearchAux (p : List Tok) (prev : Option Char) : List Char → Bool
  | [] => tryMatchAt p prev []
  | c :: cs => tryMatchAt p prev (c :: cs) || reSearchAux p (some c) cs

/-- Model of `re.search(pattern, text) is not None` for the fixed patterns. -/
def reSearch (p : List Tok) (cs : List Char) : Bool := reSearchAux p none cs

/-! ### SQLValidator (src/database.py lines 20-129) -/

/-- SecurityMode (src/config.py). -/
inductive SecurityMode : Type
  | readonly
  | limited_write
  | full_access
deriving DecidableEq

/-- READONLY_OPERATIONS. -/
def READONLY_OPERATIONS : List (List Char) :=
  ["SELECT".data, "WITH".data, "DESC".data, "DESCRIBE".data, "EXPLAIN".data]

/-- WRITE_OPERATIONS. -/
def WRITE_OPERATIONS : List (List Char) :=
  ["INSERT".data, "UPDATE".data, "MERGE".data]

/-- DANGEROUS_OPERATIONS. -/
def DANGEROUS_OPERATIONS : List (List Char) :=
  ["DELETE".data, "DROP".data, "CREATE".data, "ALTER".data,
   "TRUNCATE".data, "GRANT".data, "REVOKE".data, "PURGE".data]

/-- The eight `dangerous_patterns` regexes of `_validate_readonly`,
in source order. -/
def dangerous_patterns : List (List Tok) :=
  [[Tok.lit "DROP".data, Tok.spaces, Tok.lit "TABLE".data],
   [Tok.lit "TRUNCATE".data, Tok.spaces, Tok.lit "TABLE".data],
   [Tok.lit "DELETE".data, Tok.spaces, Tok.lit "FROM".data],
   [Tok.lit "INSERT".data, Tok.spaces, Tok.lit "INTO".data],
   [Tok.lit "UPDATE".data, Tok.spaces, Tok.words, Tok.spaces, Tok.lit "SET".data],
   [Tok.lit "CREATE".data, Tok.spaces, Tok.lit "TABLE".data],
   [Tok.lit "ALTER".data, Tok.spaces, Tok.lit "TABLE".data],
   [Tok.lit "MERGE".data, Tok.spaces, Tok.lit "INTO".data]]

/-- `SQLValidator._extract_first_keyword`: first whitespace-delimited word of
the (already upper-cased, stripped) text, or `""` if there is none. -/
def extract_first_keyword (sqlUpper : List Char) : List Char :=
  (pySplit sqlUpper).headD []

/-- `SQLValidator._validate_readonly`. -/
def validate_readonly (firstKeyword sqlUpper : List Char) : Bool :=
  if !(READONLY_OPERATIONS.contains firstKeyword) then false
  else if firstKeyword = "SELECT".data then
    !(dangerous_patterns.any fun p => reSearch p sqlUpper)
  else
    !((WRITE_OPERATIONS ++ DANGEROUS_OPERATIONS).any fun f => containsSub f sqlUpper)

/-- `SQLValidator._validate_limited_write`. -/
def validate_limited_write (firstKeyword sqlUpper : List Char) : Bool :=
  if !((READONLY_OPERATIONS ++ WRITE_OPERATIONS).contains firstKeyword) then false
  else
    !(DANGEROUS_OPERATIONS.any fun d => containsSub d sqlUpper)

/-- `SQLValidator.validate_sql`. -/
def validate_sql (sql : String) (security_mode : SecurityMode) : Bool :=
  let sqlUpper := pyStrip (pyUpper sql.data)
  let firstKeyword := extract_first_keyword sqlUpper
  match security_mode with
  | SecurityMode.readonly => validate_readonly firstKeyword sqlUpper
  | SecurityMode.limited_write => validate_limited_write firstKeyword sqlUpper
  | SecurityMode.full_access => true

/-- `SQLValidator.get_error_message`. -/
def get_error_message (sql : String) (security_mode : SecurityMode) : String :=
  let sqlUpper := pyStrip (pyUpper sql.data)
  let firstKeyword : String := ⟨extract_first_keyword sqlUpper⟩
  match security_mode with
  | SecurityMode.readonly =>
    if WRITE_OPERATIONS.contains firstKeyword.data then
      "只读模式下禁止写入操作: " ++ firstKeyword
    else if DANGEROUS_OPERATIONS.contains firstKeyword.data then
      "只读模式下禁止危险操作: " ++ firstKeyword
    else
      "只读模式下不支持的操作: " ++ firstKeyword
  | SecurityMode.limited_write =>
    if DANGEROUS_OPERATIONS.contains firstKeyword.data then
      "限制写入模式下禁止危险操作: " ++ firstKeyword
    else
      "限制写入模式下不支持的操作: " ++ firstKeyword
  | SecurityMode.full_access => "操作被安全策略禁止"

/-! ### Query execution pipeline (src/database.py lines 166-230)

The cx_Oracle driver is abstracted by a `DriverState`: the column names of
`cursor.description`, the rows `cursor.fetchall()` would return, and
`cursor.rowcount`.  A cell is a LOB (carrying what `value.read()` returns),
a datetime-like value (carrying what `value.isoformat()` returns), or any
other scalar, kept opaque. -/

/-- A cell value as returned by the driver. -/
inductive DriverCell : Type
  | lob : String → DriverCell
  | datetime : String → DriverCell
  | plain : Int → DriverCell
deriving DecidableEq

/-- A cell value after normalization: LOBs and datetimes become text, other
scalars pass through unchanged. -/
inductive ResultCell : Type
  | text : String → ResultCell
  | plain : Int → ResultCell
deriving DecidableEq

/-- The per-cell normalization in the read branch of `execute_query`:
`value.read()` for a LOB, `value.isoformat()` for a datetime-like value. -/
def normalize_cell : DriverCell → ResultCell
  | DriverCell.lob content => ResultCell.text content
  | DriverCell.datetime iso => ResultCell.text iso
  | DriverCell.plain v => ResultCell.plain v

/-- A column-name-keyed record, in column order. -/
abbrev RowRecord := List (String × ResultCell)

/-- The row-dict construction of the read branch: pair each column name, in
order, with the normalized cell at its index.  (Driver rows carry exactly
one value per described column, so the zip never truncates.) -/
def build_row_record (columns : List String) (row : List DriverCell) : RowRecord :=
  List.zipWith (fun c v => (c, normalize_cell v)) columns row

/-- The driver's view of one statement execution. -/
structure DriverState : Type where
  columns : List String
  rows : List (List DriverCell)
  rowcount : Int
deriving DecidableEq

/-- An execution outcome: fetched rows, or the single write-path summary
record standing for the Python dict with keys affected_rows and status
(status is always the string success). -/
inductive ExecOutcome : Type
  | rows : List RowRecord → ExecOutcome
  | summary : Int → ExecOutcome
deriving DecidableEq

/-- Result of `execute_query`: whether `conn.commit()` was called, and the
returned value. -/
structure ExecResult : Type where
  committed : Bool
  outcome : ExecOutcome
deriving DecidableEq

/-- The branch test of `execute_query` line 183:
`sql.upper().strip().startswith(('SELECT', 'WITH', 'DESC', 'DESCRIBE', 'EXPLAIN'))` —
a prefix test on the stripped upper-cased text. -/
def starts_with_readonly (sqlUpper : List Char) : Bool :=
  READONLY_OPERATIONS.any fun p => p.isPrefixOf sqlUpper

/-- The row-cap step (src/database.py lines 205-207): replace the result by
`results[:max_result_rows]` when it has more than `max_result_rows` entries. -/
def truncate_results (results : List α) (max_result_rows : Int) : List α :=
  if (results.length : Int) > max_result_rows then pySlice results max_result_rows
  else results

/-- `OracleDatabase.execute_query`: validate against the configured mode,
then either fetch-normalize-truncate (read branch) or commit and report the
affected-row count (write branch).  A failed validation raises `ValueError`,
modelled as `Except.error`. -/
def execute_query (mode : SecurityMode) (max_result_rows : Int) (sql : String)
    (st : DriverState) : Except String ExecResult :=
  if !(validate_sql sql mode) then
    Except.error ("SQL操作被安全策略禁止: " ++ get_error_message sql mode)
  else if starts_with_readonly (pyStrip (pyUpper sql.data)) then
    let results := st.rows.map (build_row_record st.columns)
    Except.ok ⟨false, ExecOutcome.rows (truncate_results results max_result_rows)⟩
  else
    Except.ok ⟨true, ExecOutcome.summary st.rowcount⟩

/-- `OracleDatabase.execute_safe_query`: first validate against
`SecurityMode.readonly` unconditionally, then delegate to `execute_query`
(which validates again, against the configured mode). -/
def execute_safe_query (mode : SecurityMode) (max_result_rows : Int) (sql : String)
    (st : DriverState) : Except String ExecResult :=
  if !(validate_sql sql SecurityMode.readonly) then
    Except.error "系统查询必须是只读操作"
  else execute_query mode max_result_rows sql st

/-- Whether a pipeline call returned normally (no exception raised). -/
def execAccepted : Except String ExecResult → Bool
  | Except.ok _ => true
  | Except.error _ => false

/-- Whether a pipeline call took the read branch (returned fetched rows). -/
def took_read_branch : Except String ExecResult → Bool
  | Except.ok r =>
      match r.outcome with
      | ExecOutcome.rows _ => true
      | ExecOutcome.summary _ => false
  | Except.error _ => false

/-- The fetched rows of a read-branch result, if any. -/
def result_rows : Except String ExecResult → Option (List RowRecord)
  | Except.ok r =>
      match r.outcome with
      | ExecOutcome.rows rs => some rs
      | ExecOutcome.summary _ => none
  | Except.error _ => none

/-! ### Schema access resolver (src/config.py lines 123-133, src/database.py
lines 258-279)

Only the configuration fields the resolver and the pipeline read are
modelled.  The auto-discovery probe — `execute_safe_query` on the fixed
catalog query bound to the upper-cased schema name — is abstracted as a
function from the probed name to either the fetched rows or an exception. -/

/-- The configuration fields used by the security core. -/
structure OracleConfig : Type where
  security_mode : SecurityMode
  allowed_schemas : List String
  max_result_rows : Int
deriving DecidableEq

/-- `OracleConfig.is_all_schemas_allowed`: the wildcard marker is configured. -/
def is_all_schemas_allowed (cfg : OracleConfig) : Bool :=
  cfg.allowed_schemas.contains "*"

/-- `OracleConfig.is_auto_discover_schemas`: the auto marker is configured. -/
def is_auto_discover_schemas (cfg : OracleConfig) : Bool :=
  cfg.allowed_schemas.contains "auto"

/-- `str.upper` on a whole string (ASCII fragment). -/
def pyUpperS (s : String) : String := ⟨pyUpper s.data⟩

/-- `OracleDatabase._is_schema_allowed`: wildcard first, then the
auto-discovery probe (any exception yields false), else a case-insensitive
membership test against the configured list. -/
def is_schema_allowed (cfg : OracleConfig)
    (probe : String → Except String (List RowRecord)) (schema : String) : Bool :=
  if is_all_schemas_allowed cfg then true
  else if is_auto_discover_schemas cfg then
    match probe (pyUpperS schema) with
    | Except.ok result => decide (result.length > 0)
    | Except.error _ => false
  else
    (cfg.allowed_schemas.map pyUpperS).contains (pyUpperS schema)

/-! ### Claim-side (spec-language) predicates

These two definitions follow the words of claims C1 and C5 — "a keyword
appears as a (whitespace-delimited) token of the upper-cased text" — for
comparison against the source's substring scan. -/

/-- The permission predicate exactly as claim C1 words it for the
limited_write tier: first token in the readonly or write set, and no
dangerous keyword occurring as a whitespace-delimited token. -/
def c1_spec_permits (sql : String) : Bool :=
  (READONLY_OPERATIONS ++ WRITE_OPERATIONS).contains
      (extract_first_keyword (pyStrip (pyUpper sql.data)))
    && !(DANGEROUS_OPERATIONS.any fun d => (pySplit (pyUpper sql.data)).contains d)

/-- The rejection condition exactly as claim C5 words it for non-SELECT
readonly-leading statements: some write or dangerous keyword occurs as a
whitespace-delimited token of the upper-cased text. -/
def c5_spec_rejects (sql : String) : Bool :=
  (WRITE_OPERATIONS ++ DANGEROUS_OPERATIONS).any fun k =>
    (pySplit (pyUpper sql.data)).contains k

/-! ### Generic lemmas -/

/-- An upper-cased ASCII whitespace character is unchanged. -/
lemma pyUpperChar_of_space {c : Char} (h : isPySpace c = true) : pyUpperChar c = c := by
  unfold isPySpace at h
  simp only [Bool.or_eq_true, decide_eq_true_eq] at h
  rcases h with ((((h | h) | h) | h) | h) | h <;> subst h <;> decide

/-- A whitespace-only string upper-cases and strips to the empty text. -/
lemma pyStrip_pyUpper_of_all_space {cs : List Char}
    (h : ∀ c ∈ cs, isPySpace c = true) : pyStrip (pyUpper cs) = [] := by
  have hup : pyUpper cs = cs := by
    unfold pyUpper
    rw [List.map_congr_left fun c hc => pyUpperChar_of_space (h c hc)]
    exact List.map_id cs
  rw [hup]
  unfold pyStrip
  rw [List.dropWhile_eq_nil_iff.mpr h]
  rfl

/-- For a nonnegative cap, the row-cap step is plain `List.take`. -/
lemma truncate_results_of_nonneg (results : List α) (n : Int) (h : 0 ≤ n) :
    truncate_results results n = results.take n.toNat := by
  unfold truncate_results pySlice
  split
  · rw [if_neg (by omega)]
  · rename_i hle
    rw [List.take_of_length_le]
    omega

/-! ### The claims -/

/-- C9: under the full_access tier, `validate_sql` permits every SQL string
unconditionally — including the empty string and malformed text — so any
failure can arise only at the driver layer. -/
theorem c9_full_access_permits_everything :
    ∀ sql : String, validate_sql sql SecurityMode.full_access = true :=
  fun _ => rfl

/-- C10: the empty string and every whitespace-only string yield the empty
first keyword, which is in no keyword set, so validation denies such a
statement under both the read_only and the limited_write tier. -/
theorem c10_blank_statement_denied :
    ∀ sql : String, (∀ c ∈ sql.data, isPySpace c = true) →
      extract_first_keyword (pyStrip (pyUpper sql.data)) = [] ∧
      validate_sql sql SecurityMode.readonly = false ∧
      validate_sql sql SecurityMode.limited_write = false := by
  intro sql h
  have hstrip : pyStrip (pyUpper sql.data) = [] := pyStrip_pyUpper_of_all_space h
  refine ⟨by rw [hstrip]; rfl, ?_, ?_⟩ <;> simp only [validate_sql, hstrip] <;> decide

/-- C10 witness: the two-space string is denied under both tiers. -/
theorem c10_witness :
    extract_first_keyword (pyStrip (pyUpper "  ".data)) = [] ∧
    validate_sql "  " SecurityMode.readonly = false ∧
    validate_sql "  " SecurityMode.limited_write = false :=
  c10_blank_statement_denied "  " (by decide)

/-- C1 counterexample: `INSERT INTO CREATED VALUES (1)` carries no dangerous
keyword as a whitespace-delimited token — the claim's predicate permits it —
yet `validate_sql` denies it under limited_write, because the code scans for
dangerous keywords as substrings and CREATE occurs inside CREATED. -/
theorem c1_counterexample :
    c1_spec_permits "INSERT INTO CREATED VALUES (1)" = true ∧
    validate_sql "INSERT INTO CREATED VALUES (1)" SecurityMode.limited_write = false := by
  decide

/-- C1 (amended): under limited_write, a statement is permitted iff its
first whitespace-delimited token (upper-cased) is in the readonly or write
set and no dangerous keyword occurs as a substring (not merely as a token)
of the upper-cased text; `INSERT INTO t VALUES (1)` is permitted, `DROP
TABLE t` is denied, and a MERGE-leading statement is permitted exactly when
no dangerous keyword occurs as a substring. -/
theorem c1_limited_write_characterization :
    (∀ sql : String,
      validate_sql sql SecurityMode.limited_write = true ↔
        ((READONLY_OPERATIONS ++ WRITE_OPERATIONS).contains
            (extract_first_keyword (pyStrip (pyUpper sql.data))) = true ∧
         ∀ d ∈ DANGEROUS_OPERATIONS, containsSub d (pyStrip (pyUpper sql.data)) = false)) ∧
    validate_sql "INSERT INTO t VALUES (1)" SecurityMode.limited_write = true ∧
    validate_sql "DROP TABLE t" SecurityMode.limited_write = false ∧
    (∀ sql : String,
      extract_first_keyword (pyStrip (pyUpper sql.data)) = "MERGE".data →
      (validate_sql sql SecurityMode.limited_write = true ↔
        ∀ d ∈ DANGEROUS_OPERATIONS, containsSub d (pyStrip (pyUpper sql.data)) = false)) := by
  have main : ∀ sql : String,
      validate_sql sql SecurityMode.limited_write = true ↔
        ((READONLY_OPERATIONS ++ WRITE_OPERATIONS).contains
            (extract_first_keyword (pyStrip (pyUpper sql.data))) = true ∧
         ∀ d ∈ DANGEROUS_OPERATIONS, containsSub d (pyStrip (pyUpper sql.data)) = false) := by
    intro sql
    simp only [validate_sql, validate_limited_write]
    by_cases h : (READONLY_OPERATIONS ++ WRITE_OPERATIONS).contains
        (extract_first_keyword (pyStrip (pyUpper sql.data))) = true
    · simp [h, List.any_eq_true]
    · simp [Bool.not_eq_true] at h
      simp [h]
  refine ⟨main, by decide, by decide, ?_⟩
  intro sql hfk
  rw [main sql, hfk]
  simp only [show (READONLY_OPERATIONS ++ WRITE_OPERATIONS).contains "MERGE".data = true
    from by decide, true_and]

/-- C1 witness: a dangerous-keyword-free MERGE statement is permitted
under limited_write. -/
theorem c1_witness :
    validate_sql "MERGE INTO t USING s ON (1=1)" SecurityMode.limited_write = true :=
  (c1_limited_write_characterization.2.2.2 "MERGE INTO t USING s ON (1=1)"
    (by decide)).mpr (by decide)

/-- C2: under read_only, a permitted statement has its first token in the
readonly set; a SELECT-leading statement is denied whenever one of the eight
word-boundary dangerous sub-clause patterns matches the upper-cased text;
and the three concrete examples of the claim behave as stated. -/
theorem c2_readonly_validation :
    (∀ sql : String, validate_sql sql SecurityMode.readonly = true →
      READONLY_OPERATIONS.contains
        (extract_first_keyword (pyStrip (pyUpper sql.data))) = true) ∧
    (∀ sql : String,
      extract_first_keyword (pyStrip (pyUpper sql.data)) = "SELECT".data →
      (dangerous_patterns.any fun p => reSearch p (pyStrip (pyUpper sql.data))) = true →
      validate_sql sql SecurityMode.readonly = false) ∧
    validate_sql "SELECT 1 FROM DUAL" SecurityMode.readonly = true ∧
    validate_sql "DELETE FROM t" SecurityMode.readonly = false ∧
    validate_sql "SELECT * FROM t WHERE x IN (SELECT 1 FROM DUAL); DROP TABLE t"
      SecurityMode.readonly = false := by
  refine ⟨?_, ?_, by decide, by decide, by decide⟩
  · intro sql h
    by_contra hc
    simp only [Bool.not_eq_true] at hc
    simp only [validate_sql, validate_readonly, hc] at h
    simp at h
  · intro sql hfk hany
    simp only [validate_sql, validate_readonly, hfk, hany]
    rw [if_neg (by decide)]
    simp

/-- C2 witness: a valid read-only statement has a readonly first token, and
a SELECT smuggling a DROP TABLE fragment is denied. -/
theorem c2_witness :
    READONLY_OPERATIONS.contains
        (extract_first_keyword (pyStrip (pyUpper "SELECT 1 FROM DUAL".data))) = true ∧
    validate_sql "SELECT * FROM T; DROP TABLE T" SecurityMode.readonly = false :=
  ⟨c2_readonly_validation.1 "SELECT 1 FROM DUAL" (by decide),
   c2_readonly_validation.2.1 "SELECT * FROM T; DROP TABLE T" (by decide) (by decide)⟩

/-- C5 counterexample: `DESC CREATED` contains no write or dangerous keyword
as a whitespace-delimited token — so the claim says it is accepted — yet
`validate_sql` rejects it under read_only, because the code scans substrings
and CREATE occurs inside CREATED. -/
theorem c5_counterexample :
    extract_first_keyword (pyStrip (pyUpper "DESC CREATED".data)) = "DESC".data ∧
    c5_spec_rejects "DESC CREATED" = false ∧
    validate_sql "DESC CREATED" SecurityMode.readonly = false := by
  decide

/-- C5 (amended): under read_only, a statement whose first token is WITH,
DESC, DESCRIBE or EXPLAIN is rejected iff some write or dangerous keyword
occurs as a substring (not merely as a token) of the upper-cased text. -/
theorem c5_nonselect_readonly_characterization :
    ∀ sql : String,
      (extract_first_keyword (pyStrip (pyUpper sql.data)) = "WITH".data ∨
       extract_first_keyword (pyStrip (pyUpper sql.data)) = "DESC".data ∨
       extract_first_keyword (pyStrip (pyUpper sql.data)) = "DESCRIBE".data ∨
       extract_first_keyword (pyStrip (pyUpper sql.data)) = "EXPLAIN".data) →
      (validate_sql sql SecurityMode.readonly = false ↔
        ∃ k ∈ WRITE_OPERATIONS ++ DANGEROUS_OPERATIONS,
          containsSub k (pyStrip (pyUpper sql.data)) = true) := by
  intro sql h
  have hin : READONLY_OPERATIONS.contains
      (extract_first_keyword (pyStrip (pyUpper sql.data))) = true := by
    rcases h with h | h | h | h <;> rw [h] <;> decide
  have hne : ¬ (extract_first_keyword (pyStrip (pyUpper sql.data)) = "SELECT".data) := by
    rcases h with h | h | h | h <;> rw [h] <;> decide
  have key : validate_sql sql SecurityMode.readonly
      = !((WRITE_OPERATIONS ++ DANGEROUS_OPERATIONS).any fun f =>
          containsSub f (pyStrip (pyUpper sql.data))) := by
    simp only [validate_sql, validate_readonly, hin]
    rw [if_neg (by decide), if_neg hne]
  rw [key]
  cases hb : (WRITE_OPERATIONS ++ DANGEROUS_OPERATIONS).any fun f =>
      containsSub f (pyStrip (pyUpper sql.data))
  · constructor
    · intro h1
      exact Bool.noConfusion h1
    · rintro ⟨k, hk, hck⟩
      have hany := (@List.any_eq_true _ (fun f => containsSub f (pyStrip (pyUpper sql.data)))
        (WRITE_OPERATIONS ++ DANGEROUS_OPERATIONS)).mpr ⟨k, hk, hck⟩
      rw [hb] at hany
      exact Bool.noConfusion hany
  · constructor
    · intro _
      exact (@List.any_eq_true _ (fun f => containsSub f (pyStrip (pyUpper sql.data)))
        (WRITE_OPERATIONS ++ DANGEROUS_OPERATIONS)).mp hb
    · intro _
      rfl

/-- C5 witness: `DESC CREATED` is rejected, via the substring occurrence of
CREATE. -/
theorem c5_witness :
    validate_sql "DESC CREATED" SecurityMode.readonly = false :=
  (c5_nonselect_readonly_characterization "DESC CREATED"
    (Or.inr (Or.inl (by decide)))).mpr ⟨"CREATE".data, by decide, by decide⟩

/-- C3 counterexample: `SELECT DELETED FROM T` passes read_only validation
(the word-boundary patterns do not match inside DELETED), yet under the
limited_write tier `execute_safe_query` rejects it, because after the forced
read_only check it delegates to `execute_query`, which validates again
against the configured tier and the limited_write substring scan finds
DELETE inside DELETED. -/
theorem c3_counterexample :
    validate_sql "SELECT DELETED FROM T" SecurityMode.readonly = true ∧
    execAccepted (execute_safe_query SecurityMode.limited_write 1000
      "SELECT DELETED FROM T" ⟨["A"], [], 0⟩) = false := by
  decide

/-- C3 (amended): `execute_safe_query` accepts and executes a statement iff
it passes read_only validation and also the configured tier's validation;
whenever the read_only check passes, the call is exactly a call to the
tier-driven `execute_query`. -/
theorem c3_forced_readonly_validation :
    ∀ (mode : SecurityMode) (maxRows : Int) (sql : String) (st : DriverState),
      execAccepted (execute_safe_query mode maxRows sql st)
        = (validate_sql sql SecurityMode.readonly && validate_sql sql mode) ∧
      (validate_sql sql SecurityMode.readonly = true →
        execute_safe_query mode maxRows sql st = execute_query mode maxRows sql st) := by
  intro mode maxRows sql st
  constructor
  · cases hr : validate_sql sql SecurityMode.readonly
    · simp [execute_safe_query, hr, execAccepted]
    · cases hm : validate_sql sql mode
      · simp [execute_safe_query, execute_query, hr, hm, execAccepted]
      · cases hs : starts_with_readonly (pyStrip (pyUpper sql.data)) <;>
          simp [execute_safe_query, execute_query, hr, hm, hs, execAccepted]
  · intro hr
    simp [execute_safe_query, hr]

/-- C3 witness: for a plain read-only statement the forced-readonly entry
point coincides with the tier-driven one. -/
theorem c3_witness :
    execute_safe_query SecurityMode.readonly 1000 "SELECT 1 FROM DUAL" ⟨["X"], [], 0⟩
      = execute_query SecurityMode.readonly 1000 "SELECT 1 FROM DUAL" ⟨["X"], [], 0⟩ :=
  (c3_forced_readonly_validation SecurityMode.readonly 1000 "SELECT 1 FROM DUAL"
    ⟨["X"], [], 0⟩).2 (by decide)

/-- C4 counterexample: under full_access the statement `SELECTA FROM T` is
permitted and takes the read branch — the branch test is
`startswith('SELECT', …)` on the stripped upper text, a prefix test — even
though its leading whitespace-delimited token SELECTA is not in the
readonly set. -/
theorem c4_counterexample :
    validate_sql "SELECTA FROM T" SecurityMode.full_access = true ∧
    took_read_branch (execute_query SecurityMode.full_access 1000 "SELECTA FROM T"
      ⟨["A"], [], 0⟩) = true ∧
    READONLY_OPERATIONS.contains
      (extract_first_keyword (pyStrip (pyUpper "SELECTA FROM T".data))) = false := by
  decide

/-- C4 (amended): for every permitted statement, the read branch (fetch,
normalize LOB and datetime cells, build column-name-keyed records in column
order, truncate to the row cap) is taken exactly when the stripped
upper-cased text starts with one of SELECT, WITH, DESC, DESCRIBE, EXPLAIN
(a prefix test, not a leading-token test); in every other case the
transaction is committed and the result is the single summary record with
the driver-reported affected-row count. -/
theorem c4_branch_characterization :
    ∀ (mode : SecurityMode) (maxRows : Int) (sql : String) (st : DriverState),
      validate_sql sql mode = true →
      took_read_branch (execute_query mode maxRows sql st)
          = starts_with_readonly (pyStrip (pyUpper sql.data)) ∧
      (starts_with_readonly (pyStrip (pyUpper sql.data)) = true →
        execute_query mode maxRows sql st =
          Except.ok ⟨false, ExecOutcome.rows
            (truncate_results (st.rows.map (build_row_record st.columns)) maxRows)⟩) ∧
      (starts_with_readonly (pyStrip (pyUpper sql.data)) = false →
        execute_query mode maxRows sql st =
          Except.ok ⟨true, ExecOutcome.summary st.rowcount⟩) := by
  intro mode maxRows sql st hv
  cases hs : starts_with_readonly (pyStrip (pyUpper sql.data)) <;>
    simp [execute_query, hv, hs, took_read_branch]

/-- C4 witness: a permitted SELECT takes the read branch; a permitted
INSERT commits and yields the affected-row summary. -/
theorem c4_witness :
    took_read_branch (execute_query SecurityMode.limited_write 1000 "SELECT A FROM T"
        ⟨["A"], [[DriverCell.plain 7]], 1⟩) = true ∧
    execute_query SecurityMode.limited_write 1000 "INSERT INTO T VALUES (1)"
        ⟨["A"], [], 3⟩ = Except.ok ⟨true, ExecOutcome.summary 3⟩ :=
  ⟨by
    rw [(c4_branch_characterization SecurityMode.limited_write 1000 "SELECT A FROM T"
      ⟨["A"], [[DriverCell.plain 7]], 1⟩ (by decide)).1]
    decide,
   (c4_branch_characterization SecurityMode.limited_write 1000 "INSERT INTO T VALUES (1)"
      ⟨["A"], [], 3⟩ (by decide)).2.2 (by decide)⟩

/-- C8 counterexample: with the cap set to -1 (the configured
`max_result_rows` is an unconstrained int) and a 5-row driver result, the
read branch returns 4 rows — Python's `results[:-1]` drops the last row —
not min(5, -1) rows as the claim's formula would demand. -/
theorem c8_counterexample :
    (result_rows (execute_query SecurityMode.readonly (-1) "SELECT C FROM T"
        ⟨["C"], [[DriverCell.plain 1], [DriverCell.plain 2], [DriverCell.plain 3],
                 [DriverCell.plain 4], [DriverCell.plain 5]], 5⟩)).map List.length
      = some 4 ∧
    ¬ ((4 : Int) = min 5 (-1)) := by
  decide

/-- C8 (amended): for every read-branch execution with a nonnegative
configured cap N and M driver rows, the outcome is exactly the first N rows
in driver order, hence min(M, N) rows, and truncation never errors. -/
theorem c8_row_cap :
    ∀ (mode : SecurityMode) (maxRows : Int) (sql : String) (st : DriverState),
      0 ≤ maxRows →
      validate_sql sql mode = true →
      starts_with_readonly (pyStrip (pyUpper sql.data)) = true →
      result_rows (execute_query mode maxRows sql st)
          = some ((st.rows.map (build_row_record st.columns)).take maxRows.toNat) ∧
      (result_rows (execute_query mode maxRows sql st)).map List.length
          = some (min st.rows.length maxRows.toNat) := by
  intro mode maxRows sql st hnn hv hs
  have hread : execute_query mode maxRows sql st =
      Except.ok ⟨false, ExecOutcome.rows
        (truncate_results (st.rows.map (build_row_record st.columns)) maxRows)⟩ := by
    simp [execute_query, hv, hs]
  rw [hread, truncate_results_of_nonneg _ _ hnn]
  refine ⟨rfl, ?_⟩
  simp [result_rows, List.length_take, List.length_map, Nat.min_comm]

/-- C8 witness: with cap 2 and a 5-row result, exactly 2 rows come back. -/
theorem c8_witness :
    (result_rows (execute_query SecurityMode.readonly 2 "SELECT C FROM T"
        ⟨["C"], [[DriverCell.plain 1], [DriverCell.plain 2], [DriverCell.plain 3],
                 [DriverCell.plain 4], [DriverCell.plain 5]], 5⟩)).map List.length
      = some 2 :=
  (c8_row_cap SecurityMode.readonly 2 "SELECT C FROM T"
    ⟨["C"], [[DriverCell.plain 1], [DriverCell.plain 2], [DriverCell.plain 3],
             [DriverCell.plain 4], [DriverCell.plain 5]], 5⟩
    (by decide) (by decide) (by decide)).2

/-- C6: with the wildcard configured, every schema name is allowed whatever
the probe would answer (so no probe matters, even when the auto marker is
also present); with neither wildcard nor auto, a name is allowed exactly
when it case-insensitively equals a configured name; in particular with
allow-list HR, hr is allowed and FINANCE is not. -/
theorem c6_schema_resolution :
    (∀ (cfg : OracleConfig) (probe : String → Except String (List RowRecord))
        (schema : String),
      is_all_schemas_allowed cfg = true →
      is_schema_allowed cfg probe schema = true) ∧
    (∀ (cfg : OracleConfig) (probe : String → Except String (List RowRecord))
        (schema : String),
      is_all_schemas_allowed cfg = false →
      is_auto_discover_schemas cfg = false →
      (is_schema_allowed cfg probe schema = true ↔
        ∃ s ∈ cfg.allowed_schemas, pyUpperS schema = pyUpperS s)) ∧
    (∀ probe : String → Except String (List RowRecord),
      is_schema_allowed ⟨SecurityMode.readonly, ["HR"], 1000⟩ probe "hr" = true ∧
      is_schema_allowed ⟨SecurityMode.readonly, ["HR"], 1000⟩ probe "FINANCE" = false) := by
  refine ⟨?_, ?_, ?_⟩
  · intro cfg probe schema hall
    simp [is_schema_allowed, hall]
  · intro cfg probe schema hall hauto
    simp only [is_schema_allowed, hall, hauto, Bool.false_eq_true, if_false]
    simp [List.contains, List.elem_iff, List.mem_map, eq_comm]
  · intro probe
    exact ⟨rfl, rfl⟩

/-- C6 witness: wildcard allows any name even with auto present and a
failing probe; the HR allow-list admits hr. -/
theorem c6_witness :
    is_schema_allowed ⟨SecurityMode.readonly, ["*", "auto"], 1000⟩
        (fun _ => Except.error "boom") "ANY" = true ∧
    is_schema_allowed ⟨SecurityMode.readonly, ["HR"], 1000⟩
        (fun _ => Except.error "boom") "hr" = true :=
  ⟨c6_schema_resolution.1 ⟨SecurityMode.readonly, ["*", "auto"], 1000⟩
      (fun _ => Except.error "boom") "ANY" (by decide),
   (c6_schema_resolution.2.2 (fun _ => Except.error "boom")).1⟩

/-- C7: in auto-discover mode (auto configured, no wildcard), a schema is
allowed iff the forced-readonly catalog probe on the upper-cased name
returns at least one row; a probe failure (modelled as `Except.error`, the
image of any Python exception) yields false — the resolver is a total
function, it never propagates the exception. -/
theorem c7_auto_discover_probe :
    ∀ (cfg : OracleConfig) (probe : String → Except String (List RowRecord))
        (schema : String),
      is_all_schemas_allowed cfg = false →
      is_auto_discover_schemas cfg = true →
      ((is_schema_allowed cfg probe schema = true ↔
          ∃ rs, probe (pyUpperS schema) = Except.ok rs ∧ 0 < rs.length) ∧
       ∀ e, probe (pyUpperS schema) = Except.error e →
          is_schema_allowed cfg probe schema = false) := by
  intro cfg probe schema hall hauto
  cases hp : probe (pyUpperS schema) with
  | ok rs =>
      constructor
      · simp [is_schema_allowed, hall, hauto, hp]
      · intro e he
        exact Except.noConfusion he
  | error e =>
      constructor
      · simp [is_schema_allowed, hall, hauto, hp]
      · intro e2 he
        simp [is_schema_allowed, hall, hauto, hp]

/-- C7 witness: with auto configured, a probe answering one catalog row
makes the schema allowed. -/
theorem c7_witness :
    is_schema_allowed ⟨SecurityMode.readonly, ["auto"], 1000⟩
      (fun _ => Except.ok [[("OWNER", ResultCell.text "HR")]]) "hr" = true :=
  ((c7_auto_discover_probe ⟨SecurityMode.readonly, ["auto"], 1000⟩
      (fun _ => Except.ok [[("OWNER", ResultCell.text "HR")]]) "hr"
      (by decide) (by decide)).1).mpr
    ⟨[[("OWNER", ResultCell.text "HR")]], rfl, by decide⟩

end OracleMCP
